import Mathlib

/-!
Verification of the vtix-ng web-backend skeleton.

The repository consists of three Python files:
* `main.py` — builds the FastAPI application, mounts the users router, and
  serves a metadata endpoint at `/`;
* `routers/users.py` — an `APIRouter` with prefix `/users` exposing
  `GET /users/{user_id}` which echoes the integer path parameter;
* `backend/add_user.py` — a standalone probe script posting a registration
  payload to `http://localhost:8080/auth/register` via `requests` and printing
  the parsed JSON response.

We embed the JSON data flowing through the system, the two route handlers,
the application's route table and request dispatch (including the framework's
integer coercion of path parameters), and the probe with its HTTP transport
abstracted as a function argument.
-/

/-- JSON values as they appear in this system: Python dicts keep insertion
order, so objects are ordered association lists. -/
inductive Json where
  | str (s : String)
  | int (n : Int)
  | arr (xs : List Json)
  | obj (fields : List (String × Json))

/-- Embedding of `read_user` (routers/users.py, lines 9–11):
`def read_user(user_id: int): return {"user_id": user_id}`. -/
def read_user (user_id : Int) : Json :=
  .obj [("user_id", .int user_id)]

/-- Embedding of `read_root` (main.py, lines 11–17): the constant metadata
object `{"app": "vtix-ng", "version": "0.1.0", "author": ["yemaster", "XeF2"]}`. -/
def read_root : Json :=
  .obj [("app", .str "vtix-ng"),
        ("version", .str "0.1.0"),
        ("author", .arr [.str "yemaster", .str "XeF2"])]

/-- A path pattern segment: either a fixed literal or an integer-typed path
parameter (the only parameter kind used by this application). -/
inductive Segment where
  | fixed (s : String)
  | intParam (name : String)
deriving DecidableEq

/-- A declared route: HTTP method plus path pattern (as segments). -/
structure RouteDecl where
  method : String
  pattern : List Segment
deriving DecidableEq

/-- Embedding of the `APIRouter(...)` construction in routers/users.py:
mount point `/users`, tags `["users"]`, the declared 404 response shape, and
the single route `GET /{user_id}` (pattern relative to the mount point). -/
structure RouterData where
  mountPoint : List String
  tags : List String
  responses : List (Nat × Json)
  routes : List RouteDecl

def usersRouter : RouterData :=
  { mountPoint := ["users"],
    tags := ["users"],
    responses := [(404, .obj [("code", .int 404), ("msg", .str "Not found")])],
    routes := [{ method := "GET", pattern := [.intParam "user_id"] }] }

/-- Embedding of `app.include_router(users.router)`: every route of the router
is re-exposed with the router's mount-point segments prepended, unchanged
otherwise. -/
def includeRouter (r : RouterData) : List RouteDecl :=
  r.routes.map (fun rt => { rt with pattern := r.mountPoint.map Segment.fixed ++ rt.pattern })

/-- The application's route table, in registration order:
`app.include_router(users.router)` first, then `@app.get("/")`. -/
def appRoutes : List RouteDecl :=
  includeRouter usersRouter ++ [{ method := "GET", pattern := [] }]

/-- Match a path pattern against the request's path segments, returning the
raw (uncoerced) strings captured by the parameters, in order. -/
def matchPattern : List Segment → List String → Option (List String)
  | [], [] => some []
  | .fixed f :: ps, s :: ss => if f = s then matchPattern ps ss else none
  | .intParam _ :: ps, s :: ss => (matchPattern ps ss).map (fun caps => s :: caps)
  | _, _ => none

/-- One step of decimal parsing: accumulate digits left to right; any
non-digit character fails. -/
def parseDigitsAcc (acc : Nat) : List Char → Option Nat
  | [] => some acc
  | c :: cs => if c.isDigit then parseDigitsAcc (acc * 10 + (c.toNat - 48)) cs else none

/-- Parse a non-empty run of decimal digits. -/
def parseDigits (cs : List Char) : Option Nat :=
  if cs = [] then none else parseDigitsAcc 0 cs

/-- Parse an optionally signed decimal integer from a character list. -/
def parseIntChars (cs : List Char) : Option Int :=
  match cs with
  | [] => none
  | c :: rest =>
    if c = '-' then (parseDigits rest).map (fun m => -(m : Int))
    else if c = '+' then (parseDigits rest).map (fun m => (m : Int))
    else (parseDigits cs).map (fun m => (m : Int))

/-- Model of the framework's integer coercion of a path segment (the
`user_id: int` annotation): an optional sign followed by one or more decimal
digits; anything else is a validation failure. -/
def coerceInt (s : String) : Option Int :=
  parseIntChars s.data

/-- Outcome of dispatching one request: a handler response, or one of the
framework-generated failures (validation error, method not allowed, or the
framework's default not-found for unmatched paths). -/
inductive DispatchResult where
  | handled (status : Nat) (body : Json)
  | validationError
  | methodNotAllowed
  | notFound

/-- The HTTP status of a dispatch outcome; the framework renders validation
failures as 422, wrong-method as 405 and unmatched paths as 404. -/
def DispatchResult.status : DispatchResult → Nat
  | .handled s _ => s
  | .validationError => 422
  | .methodNotAllowed => 405
  | .notFound => 404

/-- The full pattern of the echo route after mounting: `/users/{user_id}`. -/
def userFullPattern : List Segment :=
  [.fixed "users", .intParam "user_id"]

/-- Dispatch one request against the application's routes, mirroring the
framework: match the path against each registered route in order; on a match,
coerce the captured parameter (422 on failure) and run the handler; an
unmatched path yields the framework's default 404. The request path is given
as its slash-separated segments, `/` being the empty list. -/
def appDispatch (method : String) (segs : List String) : DispatchResult :=
  match matchPattern userFullPattern segs with
  | some caps =>
    if method = "GET" then
      match caps with
      | [s] =>
        match coerceInt s with
        | some n => .handled 200 (read_user n)
        | none => .validationError
      | _ => .notFound
    else .methodNotAllowed
  | none =>
    match matchPattern [] segs with
    | some _ => if method = "GET" then .handled 200 read_root else .methodNotAllowed
    | none => .notFound

/-- The decimal digit characters, by value. -/
def digitChar (d : Nat) : Char :=
  if d = 0 then '0' else if d = 1 then '1' else if d = 2 then '2' else if d = 3 then '3'
  else if d = 4 then '4' else if d = 5 then '5' else if d = 6 then '6'
  else if d = 7 then '7' else if d = 8 then '8' else '9'

/-- Decimal rendering of a natural number, most significant digit first; this
models the client writing an integer into the request path. -/
def natToChars (n : Nat) : List Char :=
  ((Nat.digits 10 n).map digitChar).reverse

def natToStr (n : Nat) : String :=
  if n = 0 then "0" else String.mk (natToChars n)

/-- Decimal rendering of an integer, with a leading minus sign if negative. -/
def intToStr (n : Int) : String :=
  if n < 0 then String.mk ('-' :: (natToStr n.natAbs).data) else natToStr n.natAbs

/-- A request as received by the application: method and path segments. -/
structure Request where
  method : String
  segs : List String

/-- The application handles a sequence of requests; it holds no mutable state
(no store, no globals written), so the response trace is the pointwise image
of the request list under `appDispatch`. -/
def serve (reqs : List Request) : List DispatchResult :=
  reqs.map (fun r => appDispatch r.method r.segs)

/-- State-passing translation of `read_user` over an arbitrary ambient state
`σ`: the handler body is a single pure `return` expression, so it reads no
state and passes the world through unchanged. -/
def readUserSt (σ : Type) (w : σ) (user_id : Int) : Json × σ :=
  (read_user user_id, w)

/-- An HTTP request as issued by the probe script: method, URL, headers and
JSON body (the `json=data` keyword of `requests.post`). -/
structure HttpRequest where
  method : String
  url : String
  headers : List (String × String)
  jsonBody : Json

/-- Model of a `requests.Response`: the status code together with the outcome
of `.json()` — the decoded body, or the decode-error message raised when the
body is not valid JSON. -/
structure HttpResponse where
  statusCode : Nat
  jsonResult : Except String Json

/-- The HTTP transport underlying `requests.post`: it either returns a
response or raises a transport error (connection refused, timeout, ...),
modelled as the `Except` error case carrying the error message. -/
def Transport : Type :=
  HttpRequest → Except String HttpResponse

/-- The two failure modes of the probe: a transport error raised by
`requests.post`, or a decode error raised by `Response.json()`; each carries
the underlying error unchanged. -/
inductive RequestFailure where
  | networkError (msg : String)
  | decodeError (msg : String)

/-- Embedding of the request constructed by `add_user`
(backend/add_user.py, lines 4–12): POST to the hardcoded URL with the single
`origin` header and the `{"username": ..., "password": ...}` JSON body. -/
def registerRequest (username password : String) : HttpRequest :=
  { method := "POST",
    url := "http://localhost:8080/auth/register",
    headers := [("origin", "http://localhost:3000")],
    jsonBody := .obj [("username", .str username), ("password", .str password)] }

/-- Embedding of `add_user` (backend/add_user.py, lines 3–13), parameterized
by the transport: issue the POST and return the parsed JSON body; a transport
error or a JSON decode error propagates to the caller unchanged. -/
def add_user (t : Transport) (username password : String) : Except RequestFailure Json :=
  match t (registerRequest username password) with
  | .error e => .error (.networkError e)
  | .ok resp =>
    match resp.jsonResult with
    | .error e => .error (.decodeError e)
    | .ok j => .ok j

/-- Embedding of the module-level `print(add_user('testpp', 'Njsn2uy7UBuU'))`
(backend/add_user.py, line 15): executing the script calls `add_user` with the
fixed credentials and prints the returned value to standard output; if
`add_user` raises, nothing is printed and the failure terminates the script.
The first component is the list of values printed to standard output. -/
def scriptMain (t : Transport) : List Json × Except RequestFailure Unit :=
  match add_user t "testpp" "Njsn2uy7UBuU" with
  | .ok j => ([j], .ok ())
  | .error e => ([], .error e)

theorem digitChar_isDigit (d : Nat) (hd : d < 10) : (digitChar d).isDigit = true := by
  interval_cases d <;> decide

theorem digitChar_toNat (d : Nat) (hd : d < 10) : (digitChar d).toNat - 48 = d := by
  interval_cases d <;> decide

theorem isDigit_not_sign (c : Char) (h : c.isDigit = true) : ¬c = '-' ∧ ¬c = '+' := by
  constructor <;> intro hEq <;> subst hEq <;> exact absurd h (by decide)

theorem parseDigitsAcc_append (xs ys : List Char) (acc : Nat) :
    parseDigitsAcc acc (xs ++ ys) =
      (parseDigitsAcc acc xs).bind (fun a => parseDigitsAcc a ys) := by
  induction xs generalizing acc with
  | nil => simp [parseDigitsAcc]
  | cons c cs ih =>
    simp only [List.cons_append, parseDigitsAcc]
    by_cases h : c.isDigit
    · simp [h, ih]
    · simp [h]

theorem parseDigitsAcc_render (l : List Nat) (acc : Nat) (hl : ∀ d ∈ l, d < 10) :
    parseDigitsAcc acc ((l.map digitChar).reverse) =
      some (acc * 10 ^ l.length + Nat.ofDigits 10 l) := by
  induction l generalizing acc with
  | nil => simp [parseDigitsAcc, Nat.ofDigits]
  | cons d rest ih =>
    have hd : d < 10 := hl d (by simp)
    have hrest : ∀ x ∈ rest, x < 10 := fun x hx => hl x (by simp [hx])
    simp only [List.map_cons, List.reverse_cons]
    rw [parseDigitsAcc_append, ih _ hrest]
    have hstep : ∀ a : Nat, parseDigitsAcc a [digitChar d] = some (a * 10 + d) := by
      intro a
      simp [parseDigitsAcc, digitChar_isDigit d hd, digitChar_toNat d hd]
    simp only [Option.some_bind, hstep, Nat.ofDigits_cons, List.length_cons, pow_succ]
    congr 1
    ring

theorem natToChars_mem_isDigit (n : Nat) : ∀ c ∈ natToChars n, c.isDigit = true := by
  intro c hc
  rw [natToChars, List.mem_reverse, List.mem_map] at hc
  obtain ⟨d, hd, rfl⟩ := hc
  exact digitChar_isDigit d (Nat.digits_lt_base (by norm_num) hd)

theorem natToChars_ne_nil (m : Nat) (hm : 0 < m) : ¬natToChars m = [] := by
  rw [natToChars]
  simp [Nat.digits_ne_nil_iff_ne_zero, Nat.pos_iff_ne_zero.mp hm]

theorem parseDigits_natToChars (n : Nat) (hn : 0 < n) :
    parseDigits (natToChars n) = some n := by
  have hlt : ∀ d ∈ Nat.digits 10 n, d < 10 :=
    fun d hd => Nat.digits_lt_base (by norm_num) hd
  have hmain := parseDigitsAcc_render (Nat.digits 10 n) 0 hlt
  rw [Nat.ofDigits_digits] at hmain
  simp only [Nat.zero_mul, Nat.zero_add] at hmain
  rw [parseDigits, if_neg (natToChars_ne_nil n hn)]
  exact hmain

theorem parseIntChars_digits (cs : List Char) (hcs : ∀ c ∈ cs, c.isDigit = true)
    (hne : ¬cs = []) :
    parseIntChars cs = (parseDigits cs).map (fun m => (m : Int)) := by
  cases cs with
  | nil => exact absurd rfl hne
  | cons c rest =>
    have hc := hcs c (by simp)
    obtain ⟨h1, h2⟩ := isDigit_not_sign c hc
    rw [parseIntChars, if_neg h1, if_neg h2]

theorem coerceInt_natToStr (m : Nat) : coerceInt (natToStr m) = some (m : Int) := by
  rcases Nat.eq_zero_or_pos m with rfl | hm
  · rfl
  · rw [natToStr, if_neg (Nat.pos_iff_ne_zero.mp hm)]
    show parseIntChars (natToChars m) = some (m : Int)
    rw [parseIntChars_digits (natToChars m) (natToChars_mem_isDigit m) (natToChars_ne_nil m hm),
      parseDigits_natToChars m hm]
    rfl

/-- The decimal rendering of any integer is coerced back to that integer by
the framework's path-parameter coercion. -/
theorem coerceInt_intToStr (n : Int) : coerceInt (intToStr n) = some n := by
  rw [intToStr]
  by_cases hn : n < 0
  · rw [if_pos hn]
    have hpos : 0 < n.natAbs := by omega
    show parseIntChars ('-' :: (natToStr n.natAbs).data) = some n
    rw [parseIntChars, if_pos rfl, natToStr, if_neg (Nat.pos_iff_ne_zero.mp hpos)]
    show ((parseDigits (natToChars n.natAbs)).map (fun m => -(m : Int))) = some n
    rw [parseDigits_natToChars n.natAbs hpos]
    show some (-(n.natAbs : Int)) = some n
    congr 1
    omega
  · rw [if_neg hn]
    rw [coerceInt_natToStr n.natAbs]
    congr 1
    omega

/-- The mounted echo pattern `/users/{user_id}` matches exactly the paths
`["users", s]`, capturing the raw segment `s`. -/
theorem matchPattern_user (segs caps : List String) :
    matchPattern userFullPattern segs = some caps ↔ ∃ s, segs = ["users", s] ∧ caps = [s] := by
  rw [userFullPattern]
  cases segs with
  | nil => simp [matchPattern]
  | cons a ss =>
    cases ss with
    | nil =>
      rw [matchPattern]
      by_cases ha : "users" = a
      · simp [ha, matchPattern]
      · simp [ha]
    | cons b rest =>
      cases rest with
      | nil =>
        rw [matchPattern]
        by_cases ha : "users" = a
        · subst ha
          simp [matchPattern, eq_comm]
        · have ha2 : ¬a = "users" := fun h => ha h.symm
          simp [ha, ha2]
      | cons d tail =>
        rw [matchPattern]
        by_cases ha : "users" = a
        · simp [ha, matchPattern]
        · simp [ha]

theorem read_root_ne_read_user (n : Int) : ¬read_root = read_user n := by
  intro h
  rw [read_root, read_user] at h
  injection h with h1
  injection h1 with h2 h3
  injection h2 with h4 h5
  exact absurd h4 (by decide)

/-- Requests whose path is `users/<segment>` always reach the mounted echo
route: the dispatch reduces to method check plus integer coercion. -/
theorem appDispatch_users_eq (method s : String) :
    appDispatch method ["users", s] =
      if method = "GET" then
        (match coerceInt s with
         | some n => DispatchResult.handled 200 (read_user n)
         | none => DispatchResult.validationError)
      else DispatchResult.methodNotAllowed := rfl

/-- C1: For every integer `n`, dispatching `GET /users/<decimal rendering of
n>` hands `n` to the `read_user` handler, which returns the mapping
`{"user_id": n}` with HTTP status 200. -/
theorem users_echo_returns_input (n : Int) :
    appDispatch "GET" ["users", intToStr n] = .handled 200 (.obj [("user_id", .int n)]) ∧
    (appDispatch "GET" ["users", intToStr n]).status = 200 := by
  have h : appDispatch "GET" ["users", intToStr n] = .handled 200 (read_user n) := by
    rw [appDispatch_users_eq, if_pos rfl, coerceInt_intToStr n]
  exact ⟨by rw [h]; rfl, by rw [h]; rfl⟩

/-- C2: a path segment that is not parseable as an integer makes
`GET /users/<segment>` fail with the framework's validation error, HTTP 422;
and the only possible outcomes of this operation are the 200 echo and the
422 validation failure — no other failure mode exists. -/
theorem users_nonint_segment_422 (s : String) :
    (coerceInt s = none →
      appDispatch "GET" ["users", s] = .validationError ∧
      (appDispatch "GET" ["users", s]).status = 422) ∧
    ((∃ n, appDispatch "GET" ["users", s] = .handled 200 (read_user n)) ∨
      appDispatch "GET" ["users", s] = .validationError) := by
  constructor
  · intro hc
    have h : appDispatch "GET" ["users", s] = .validationError := by
      rw [appDispatch_users_eq, if_pos rfl, hc]
    exact ⟨h, by rw [h]; rfl⟩
  · rw [appDispatch_users_eq, if_pos rfl]
    cases hc : coerceInt s with
    | none => right; rfl
    | some n => left; exact ⟨n, rfl⟩

theorem users_nonint_segment_422_witness :
    coerceInt "abc" = none ∧
      appDispatch "GET" ["users", "abc"] = .validationError ∧
      (appDispatch "GET" ["users", "abc"]).status = 422 :=
  ⟨rfl, ((users_nonint_segment_422 "abc").1 rfl).1, ((users_nonint_segment_422 "abc").1 rfl).2⟩

/-- C3: `GET /` always returns exactly the literal metadata mapping
`{"app": "vtix-ng", "version": "0.1.0", "author": ["yemaster", "XeF2"]}` with
status 200; the application keeps no state, so the response is the same after
any history of prior requests. -/
theorem root_metadata_constant (hist : List Request) :
    read_root = .obj [("app", .str "vtix-ng"), ("version", .str "0.1.0"),
        ("author", .arr [.str "yemaster", .str "XeF2"])] ∧
    serve (hist ++ [{ method := "GET", segs := [] }]) =
      serve hist ++ [.handled 200 read_root] ∧
    (appDispatch "GET" []).status = 200 := by
  refine ⟨rfl, ?_, rfl⟩
  show (hist ++ [({ method := "GET", segs := [] } : Request)]).map
      (fun r => appDispatch r.method r.segs) =
    hist.map (fun r => appDispatch r.method r.segs) ++ [.handled 200 read_root]
  rw [List.map_append]
  rfl

/-- C4: `add_user` builds the JSON body `{"username": u, "password": p}`, sets
the single header `origin: http://localhost:3000`, issues
`POST http://localhost:8080/auth/register`, and returns the parsed JSON body
of the response. -/
theorem add_user_request_and_result (t : Transport) (u p : String) :
    registerRequest u p =
      { method := "POST", url := "http://localhost:8080/auth/register",
        headers := [("origin", "http://localhost:3000")],
        jsonBody := .obj [("username", .str u), ("password", .str p)] } ∧
    (∀ r j, t (registerRequest u p) = .ok r → r.jsonResult = .ok j →
      add_user t u p = .ok j) := by
  refine ⟨rfl, ?_⟩
  intro r j ht hj
  simp [add_user, ht, hj]

theorem add_user_request_and_result_witness :
    add_user (fun _ => .ok { statusCode := 200, jsonResult := .ok (.obj []) }) "u" "p" =
      .ok (.obj []) :=
  (add_user_request_and_result
    (fun _ => .ok { statusCode := 200, jsonResult := .ok (.obj []) }) "u" "p").2 _ _ rfl rfl

/-- C5: `add_user` fails exactly when the POST cannot complete (the transport
raises) or the response body is not valid JSON (decoding raises), and the
failure returned to the caller carries the underlying error unchanged — no
retry, no translation, no suppression. -/
theorem add_user_failure_iff (t : Transport) (u p : String) (e : RequestFailure) :
    add_user t u p = .error e ↔
      (∃ msg, t (registerRequest u p) = .error msg ∧ e = .networkError msg) ∨
      (∃ r msg, t (registerRequest u p) = .ok r ∧ r.jsonResult = .error msg ∧
        e = .decodeError msg) := by
  unfold add_user
  cases ht : t (registerRequest u p) with
  | error m => simp [eq_comm]
  | ok r =>
    cases hj : r.jsonResult with
    | error m => simp [hj, eq_comm]
    | ok j => simp [hj]

/-- C6: the application mounts the users router under the path prefix
`/users`, forwarding its single route unchanged, so the echo operation is
served exactly at `/users/{user_id}` (method GET, one path segment after
`users`) and at no other path. -/
theorem mount_users_router :
    includeRouter usersRouter = [{ method := "GET", pattern := userFullPattern }] ∧
    appRoutes = [{ method := "GET", pattern := userFullPattern },
                 { method := "GET", pattern := [] }] ∧
    ∀ method segs n,
      appDispatch method segs = .handled 200 (read_user n) ↔
        (method = "GET" ∧ ∃ s, segs = ["users", s] ∧ coerceInt s = some n) := by
  refine ⟨rfl, rfl, ?_⟩
  intro method segs n
  constructor
  · intro h
    cases hm : matchPattern userFullPattern segs with
    | none =>
      exfalso
      unfold appDispatch at h
      rw [hm] at h
      have h2 : (match matchPattern [] segs with
          | some _ => if method = "GET" then DispatchResult.handled 200 read_root
                      else DispatchResult.methodNotAllowed
          | none => DispatchResult.notFound) = DispatchResult.handled 200 (read_user n) := h
      cases segs with
      | nil =>
        have h3 : (if method = "GET" then DispatchResult.handled 200 read_root
            else DispatchResult.methodNotAllowed) = DispatchResult.handled 200 (read_user n) := h2
        by_cases hmet : method = "GET"
        · rw [if_pos hmet] at h3
          injection h3 with h4 h5
          exact read_root_ne_read_user n h5
        · rw [if_neg hmet] at h3
          exact DispatchResult.noConfusion h3
      | cons a ss =>
        have h3 : DispatchResult.notFound = DispatchResult.handled 200 (read_user n) := h2
        exact DispatchResult.noConfusion h3
    | some caps =>
      obtain ⟨s, hsegs, hcaps⟩ := (matchPattern_user segs caps).mp hm
      subst hsegs
      rw [appDispatch_users_eq] at h
      by_cases hmet : method = "GET"
      · rw [if_pos hmet] at h
        cases hc : coerceInt s with
        | none =>
          rw [hc] at h
          exact DispatchResult.noConfusion h
        | some m =>
          rw [hc] at h
          have hmn : m = n := by
            simpa [read_user] using h
          exact ⟨hmet, s, rfl, by rw [hc, hmn]⟩
      · rw [if_neg hmet] at h
        exact DispatchResult.noConfusion h
  · rintro ⟨rfl, s, rfl, hc⟩
    rw [appDispatch_users_eq, if_pos rfl, hc]

theorem mount_users_router_witness :
    appDispatch "GET" ["users", "7"] = .handled 200 (read_user 7) :=
  (mount_users_router.2.2 "GET" ["users", "7"] 7).mpr ⟨rfl, "7", rfl, rfl⟩

/-- C7: executing the probe script prints exactly the result of
`add_user "testpp" "Njsn2uy7UBuU"` to standard output (one printed value on
success; on failure nothing is printed and the failure terminates the
script); the printing is done by the script itself, not by `add_user`, whose
value is returned unprinted. -/
theorem script_prints_add_user_result (t : Transport) :
    (∀ j, add_user t "testpp" "Njsn2uy7UBuU" = .ok j → scriptMain t = ([j], .ok ())) ∧
    (∀ e, add_user t "testpp" "Njsn2uy7UBuU" = .error e → scriptMain t = ([], .error e)) := by
  constructor <;> intro x hx <;> simp [scriptMain, hx]

theorem script_prints_add_user_result_witness :
    scriptMain (fun _ => .ok { statusCode := 200, jsonResult := .ok (.int 1) }) =
      ([.int 1], .ok ()) :=
  (script_prints_add_user_result
    (fun _ => .ok { statusCode := 200, jsonResult := .ok (.int 1) })).1 _ rfl

/-- C8: the users router registers the 404 response shape
`{"code": 404, "msg": "Not found"}` as documentation only: every request
dispatched to the router's one operation (path `/users/<segment>`) results in
status 200, 422 or 405 — never 404. -/
theorem router_404_shape_unused (method s : String) :
    usersRouter.responses = [(404, .obj [("code", .int 404), ("msg", .str "Not found")])] ∧
    ((appDispatch method ["users", s]).status = 200 ∨
     (appDispatch method ["users", s]).status = 422 ∨
     (appDispatch method ["users", s]).status = 405) := by
  refine ⟨rfl, ?_⟩
  rw [appDispatch_users_eq]
  by_cases hmet : method = "GET"
  · rw [if_pos hmet]
    cases hc : coerceInt s with
    | some n => left; rfl
    | none => right; left; rfl
  · rw [if_neg hmet]
    right; right; rfl

/-- C9: the echo handler is pure: over any ambient state type, two runs with
the same integer input produce the same response, the state after a run is
exactly the state before (nothing written), and the response does not depend
on the state (nothing read). -/
theorem read_user_stateless (σ : Type) (w v : σ) (n : Int) :
    (readUserSt σ w n).1 = (readUserSt σ v n).1 ∧
    (readUserSt σ w n).2 = w ∧
    (readUserSt σ w n).1 = read_user n :=
  ⟨rfl, rfl, rfl⟩

/-- C10: `add_user` never inspects the HTTP status code of the response:
whenever the POST completes and the body decodes as JSON, the parsed body is
returned as a normal (non-error) result; two transports whose responses carry
the same decoded body but arbitrary different status codes (e.g. 200 vs 500)
yield the same successful result. -/
theorem add_user_ignores_status (t t2 : Transport) (u p : String)
    (r r2 : HttpResponse) (j : Json)
    (ht : t (registerRequest u p) = .ok r)
    (ht2 : t2 (registerRequest u p) = .ok r2)
    (hr : r.jsonResult = .ok j) (hr2 : r2.jsonResult = .ok j) :
    add_user t u p = .ok j ∧ add_user t2 u p = .ok j := by
  constructor
  · simp [add_user, ht, hr]
  · simp [add_user, ht2, hr2]

theorem add_user_ignores_status_witness :
    add_user (fun _ => .ok { statusCode := 200, jsonResult := .ok (.str "r") }) "a" "b" =
        .ok (.str "r") ∧
    add_user (fun _ => .ok { statusCode := 500, jsonResult := .ok (.str "r") }) "a" "b" =
        .ok (.str "r") :=
  add_user_ignores_status _ _ "a" "b" _ _ _ rfl rfl rfl rfl
